import Mathlib

/-!
Verification development for the huobao-drama generation-task pipeline.

The Go services under `application/services` are shallowly embedded:
pure string/arithmetic helpers become Lean functions, the database becomes
explicit record-list states, goroutine bodies become state-transition
functions parameterised by an environment carrying the outcomes of the
external AI calls, and Go `error` returns become `Except String`.
Machine integers (Go `int`, `uint`) are modelled as `Int` / `Nat`; the one
place where a width matters (`strconv.ParseUint(s, 10, 32)`) carries an
explicit `2^32` bound.  A Go function that panics (e.g. `make` with a
negative length) is modelled with an `Option` result, `none` standing for
the abnormal termination of the goroutine.
-/

namespace HuobaoDrama

/-! ## JSON documents and `encoding/json` style decoding

`utils.SafeParseAIJSON` (pkg/utils) is not part of the provided sources.
Modelled from the spec: the Resilient JSON Extractor locates a JSON
document inside the free-text model response (stripping prose / markdown
fences) and then unmarshals it into the requested Go value.  We model the
located document as a value of the `Json` type below (the extraction step
itself is an input of the orchestrator models, of type
`Except String Json`), and the per-target unmarshalling follows Go
`encoding/json` semantics: missing or `null` fields keep the zero value,
a type mismatch is an error, unknown fields are ignored, and for a
duplicated key the last occurrence wins. -/

/-- A JSON document (numbers restricted to integers, which is all the
decoded Go structs use). -/
inductive Json where
  | null : Json
  | bool (b : Bool) : Json
  | num (n : Int) : Json
  | str (s : String) : Json
  | arr (elems : List Json) : Json
  | obj (fields : List (String × Json)) : Json
deriving Inhabited

/-- Look up a key in a JSON object; Go `encoding/json` keeps the last
occurrence of a duplicated key. -/
def jLookup (fields : List (String × Json)) (key : String) : Option Json :=
  (fields.reverse.find? (fun p => p.1 == key)).map (·.2)

/-- Decode a Go `string` field: missing or `null` keeps the zero value `""`. -/
def jStringField (fields : List (String × Json)) (key : String) : Except String String :=
  match jLookup fields key with
  | none => .ok ""
  | some .null => .ok ""
  | some (.str s) => .ok s
  | some _ => .error ("cannot unmarshal into field " ++ key ++ " of type string")

/-- Decode a Go `int` field: missing or `null` keeps the zero value `0`. -/
def jIntField (fields : List (String × Json)) (key : String) : Except String Int :=
  match jLookup fields key with
  | none => .ok 0
  | some .null => .ok 0
  | some (.num n) => .ok n
  | some _ => .error ("cannot unmarshal into field " ++ key ++ " of type int")

/-- Decode a Go `bool` field: missing or `null` keeps the zero value `false`. -/
def jBoolField (fields : List (String × Json)) (key : String) : Except String Bool :=
  match jLookup fields key with
  | none => .ok false
  | some .null => .ok false
  | some (.bool b) => .ok b
  | some _ => .error ("cannot unmarshal into field " ++ key ++ " of type bool")

/-- Decode a Go `*uint` field: missing or `null` is `nil`, a negative
number is an unmarshalling error. -/
def jOptNatField (fields : List (String × Json)) (key : String) : Except String (Option Nat) :=
  match jLookup fields key with
  | none => .ok none
  | some .null => .ok none
  | some (.num n) =>
    if 0 ≤ n then .ok (some n.toNat)
    else .error ("cannot unmarshal negative number into field " ++ key ++ " of type uint")
  | some _ => .error ("cannot unmarshal into field " ++ key ++ " of type uint")

/-- Decode one element of a Go `[]uint`. -/
def jNatElem (j : Json) : Except String Nat :=
  match j with
  | .num n =>
    if 0 ≤ n then .ok n.toNat
    else .error "cannot unmarshal negative number into element of type uint"
  | _ => .error "cannot unmarshal into element of type uint"

/-- Decode a Go `[]uint` field: missing or `null` is the empty slice. -/
def jNatListField (fields : List (String × Json)) (key : String) : Except String (List Nat) :=
  match jLookup fields key with
  | none => .ok []
  | some .null => .ok []
  | some (.arr es) => es.mapM jNatElem
  | some _ => .error ("cannot unmarshal into field " ++ key ++ " of type slice")

/-- Decode one element of a Go `[]int`. -/
def jIntElem (j : Json) : Except String Int :=
  match j with
  | .num n => .ok n
  | _ => .error "cannot unmarshal into element of type int"

/-- Decode a Go `[]int` field: missing or `null` is the empty slice. -/
def jIntListField (fields : List (String × Json)) (key : String) : Except String (List Int) :=
  match jLookup fields key with
  | none => .ok []
  | some .null => .ok []
  | some (.arr es) => es.mapM jIntElem
  | some _ => .error ("cannot unmarshal into field " ++ key ++ " of type slice")

/-! ## The parsed AI result types (`storyboard_service.go`, `image_generation_service.go`) -/

/-- The `Storyboard` JSON struct the storyboard orchestrator decodes the AI
response into (`StoryboardService`, type `Storyboard`). -/
structure Storyboard where
  shotNumber : Int
  title : String
  shotType : String
  angle : String
  time : String
  location : String
  sceneId : Option Nat
  movement : String
  action : String
  dialogue : String
  result : String
  atmosphere : String
  emotion : String
  duration : Int
  bgmPrompt : String
  soundEffect : String
  characters : List Nat
  isPrimary : Bool
deriving Repr, DecidableEq, Inhabited

/-- `GenerateStoryboardResult`: the wrapper-object shape
`{"storyboards":[...], "total": n}`. -/
structure GenerateStoryboardResult where
  storyboards : List Storyboard
  total : Int
deriving Repr, DecidableEq, Inhabited

/-- `BackgroundInfo`: the scene descriptor decoded during background
extraction (`image_generation_service.go`). -/
structure BackgroundInfo where
  location : String
  time : String
  atmosphere : String
  prompt : String
  storyboardNumbers : List Int
  sceneIds : List Nat
  storyboardCount : Int
deriving Repr, DecidableEq, Inhabited

/-- Unmarshal one JSON value into the `Storyboard` struct, following the
struct's json tags. -/
def decodeStoryboard (j : Json) : Except String Storyboard :=
  match j with
  | .obj fs => do
    let shotNumber ← jIntField fs "shot_number"
    let title ← jStringField fs "title"
    let shotType ← jStringField fs "shot_type"
    let angle ← jStringField fs "angle"
    let time ← jStringField fs "time"
    let location ← jStringField fs "location"
    let sceneId ← jOptNatField fs "scene_id"
    let movement ← jStringField fs "movement"
    let action ← jStringField fs "action"
    let dialogue ← jStringField fs "dialogue"
    let result ← jStringField fs "result"
    let atmosphere ← jStringField fs "atmosphere"
    let emotion ← jStringField fs "emotion"
    let duration ← jIntField fs "duration"
    let bgmPrompt ← jStringField fs "bgm_prompt"
    let soundEffect ← jStringField fs "sound_effect"
    let characters ← jNatListField fs "characters"
    let isPrimary ← jBoolField fs "is_primary"
    .ok { shotNumber, title, shotType, angle, time, location, sceneId,
          movement, action, dialogue, result, atmosphere, emotion,
          duration, bgmPrompt, soundEffect, characters, isPrimary }
  | _ => .error "cannot unmarshal into value of type Storyboard"

/-- Unmarshal a JSON value into `[]Storyboard` (the bare-array shape). -/
def decodeStoryboardList (j : Json) : Except String (List Storyboard) :=
  match j with
  | .arr es => es.mapM decodeStoryboard
  | _ => .error "cannot unmarshal into value of type slice of Storyboard"

/-- Unmarshal a JSON value into `GenerateStoryboardResult` (the
wrapper-object shape `{"storyboards":[...]}`). -/
def decodeStoryboardResult (j : Json) : Except String GenerateStoryboardResult :=
  match j with
  | .obj fs => do
    let storyboards ←
      match jLookup fs "storyboards" with
      | none => .ok []
      | some .null => .ok []
      | some v => decodeStoryboardList v
    let total ← jIntField fs "total"
    .ok { storyboards, total }
  | _ => .error "cannot unmarshal into value of type GenerateStoryboardResult"

/-- Unmarshal one JSON value into `BackgroundInfo`. -/
def decodeBackgroundInfo (j : Json) : Except String BackgroundInfo :=
  match j with
  | .obj fs => do
    let location ← jStringField fs "location"
    let time ← jStringField fs "time"
    let atmosphere ← jStringField fs "atmosphere"
    let prompt ← jStringField fs "prompt"
    let storyboardNumbers ← jIntListField fs "storyboard_numbers"
    let sceneIds ← jNatListField fs "scene_ids"
    let storyboardCount ← jIntField fs "scene_count"
    .ok { location, time, atmosphere, prompt, storyboardNumbers, sceneIds, storyboardCount }
  | _ => .error "cannot unmarshal into value of type BackgroundInfo"

/-- Unmarshal a JSON value into `[]BackgroundInfo` (the bare-array shape). -/
def decodeBackgroundList (j : Json) : Except String (List BackgroundInfo) :=
  match j with
  | .arr es => es.mapM decodeBackgroundInfo
  | _ => .error "cannot unmarshal into value of type slice of BackgroundInfo"

/-- Unmarshal a JSON value into the anonymous wrapper struct
`{ Backgrounds []BackgroundInfo json:backgrounds }` used by
`extractBackgroundsFromScript`. -/
def decodeBackgroundsWrapper (j : Json) : Except String (List BackgroundInfo) :=
  match j with
  | .obj fs =>
    match jLookup fs "backgrounds" with
    | none => .ok []
    | some .null => .ok []
    | some v => decodeBackgroundList v
  | _ => .error "cannot unmarshal into value of type backgrounds wrapper"

/-- The two-shape parse of `processStoryboardGeneration`
(`storyboard_service.go` lines 394-412): first try the bare array
`[...]`, on failure try the wrapper object `{"storyboards":[...]}`. -/
def parseStoryboards (j : Json) : Except String (List Storyboard) :=
  match decodeStoryboardList j with
  | .ok l => .ok l
  | .error _ => (decodeStoryboardResult j).map (·.storyboards)

/-- The two-shape parse of `extractBackgroundsFromScript`
(`image_generation_service.go` lines 899-915): first the bare array, on
failure the wrapper object `{"backgrounds":[...]}`. -/
def parseBackgrounds (j : Json) : Except String (List BackgroundInfo) :=
  match decodeBackgroundList j with
  | .ok l => .ok l
  | .error _ => decodeBackgroundsWrapper j

/-! ## Task registry

Modelled from the spec: `TaskService` (the Task Registry) is not part of
the provided sources; only its call sites are.  Per spec section 4.1 a
status report / completion / failure on the single owning executor's
non-terminal task succeeds, so its operations are modelled as total state
updates on the task record. -/

/-- The mutable part of a Task record observed by the orchestrators. -/
structure TaskState where
  status : String
  progress : Int
  message : String
  hasResult : Bool
deriving Repr, DecidableEq, Inhabited

/-- Modelled from the spec: `TaskService.UpdateTaskStatus` stores status,
progress and human-readable message. -/
def updateTaskStatus (t : TaskState) (status : String) (progress : Int) (message : String) : TaskState :=
  { t with status := status, progress := progress, message := message }

/-- Modelled from the spec: `TaskService.UpdateTaskError` moves the task to
the terminal `failed` state with a descriptive message. -/
def updateTaskError (t : TaskState) (msg : String) : TaskState :=
  { t with status := "failed", message := msg }

/-- Modelled from the spec: `TaskService.UpdateTaskResult` moves the task to
the terminal `completed` state and stores the structured result payload. -/
def updateTaskResult (t : TaskState) : TaskState :=
  { t with status := "completed", progress := 100, hasResult := true }

/-! ## Frame prompt service (`frame_prompt_service.go`)

The single-frame generators `generateFirstFrame` / `generateKeyFrame` /
`generateLastFrame` each perform one AI text call, parse it with
`parseFramePromptJSON` (a helper not contained in the provided sources)
and fall back to `buildFallbackPrompt` on error.  For the claims about
frame composition their outcome is what matters, so they are modelled as
an oracle `FrameEnv`: `first`/`last` give the (unique) first/last-frame
call results and `key n` the result of the `n`-th key-frame call of the
composition. -/

/-- `SingleFramePrompt`. -/
structure SingleFramePrompt where
  prompt : String
  description : String
deriving Repr, DecidableEq, Inhabited

/-- `MultiFramePrompt`. -/
structure MultiFramePrompt where
  layout : String
  frames : List SingleFramePrompt
deriving Repr, DecidableEq, Inhabited

/-- `FramePromptResponse` (the `frame_type` tag plus at most one of the
two payloads). -/
structure FramePromptResponse where
  frameType : String
  singleFrame : Option SingleFramePrompt
  multiFrame : Option MultiFramePrompt
deriving Repr, DecidableEq, Inhabited

/-- Oracle for the outcomes of the single-frame generators (see section
comment). -/
structure FrameEnv where
  first : SingleFramePrompt
  key : Nat → SingleFramePrompt
  last : SingleFramePrompt

/-- `GenerateFramePromptRequest` (`PanelCount` is a Go `int`). -/
structure GenerateFramePromptRequest where
  storyboardID : String
  frameType : String
  panelCount : Int
deriving Repr, DecidableEq, Inhabited

/-- A row of the `frame_prompts` table as written by `saveFramePrompt`. -/
structure FramePromptRecord where
  storyboardId : Nat
  frameType : String
  prompt : String
  description : Option String
  layout : Option String
deriving Repr, DecidableEq, Inhabited

/-- Decimal value of a digit run. -/
def digitsVal (cs : List Char) : Nat :=
  cs.foldl (fun n c => n * 10 + (c.toNat - '0'.toNat)) 0

/-- `mustParseUint`: `fmt.Sscanf(s, "%d", &result)` reads a leading run of
digits and leaves `result` at zero when the string does not start with a
number. -/
def mustParseUint (s : String) : Nat :=
  digitsVal (s.toList.takeWhile Char.isDigit)

/-- `saveFramePrompt`: delete the rows of the same `(storyboard_id,
frame_type)` pair, then insert the new record; empty description/layout
are stored as NULL. -/
def saveFramePrompt (st : List FramePromptRecord) (storyboardID frameType prompt description layout : String) :
    List FramePromptRecord :=
  let record : FramePromptRecord :=
    { storyboardId := mustParseUint storyboardID
      frameType := frameType
      prompt := prompt
      description := if description == "" then none else some description
      layout := if layout == "" then none else some layout }
  (st.filter (fun r => !(r.storyboardId == mustParseUint storyboardID && r.frameType == frameType))) ++ [record]

/-- `generatePanelFrames`: `make([]SingleFramePrompt, count)` panics when
`count` is negative (modelled as `none`); `count == 3` composes
first/key/last with the fixed 第1格/第2格/第3格 descriptions, `count == 4`
composes first/key/key/last, and any other count leaves the freshly
allocated zero-valued frames untouched. -/
def generatePanelFrames (env : FrameEnv) (count : Int) : Option MultiFramePrompt :=
  if count < 0 then none
  else
    let layout := "horizontal_" ++ toString count
    let frames :=
      if count == 3 then
        [{ env.first with description := "第1格：初始状态" },
         { env.key 0 with description := "第2格：动作高潮" },
         { env.last with description := "第3格：最终状态" }]
      else if count == 4 then
        [env.first, env.key 0, env.key 1, env.last]
      else
        List.replicate count.toNat { prompt := "", description := "" }
    some { layout := layout, frames := frames }

/-- `generateActionSequence`: always five frames, first → key → key → key →
last, layout `horizontal_5`. -/
def generateActionSequence (env : FrameEnv) : MultiFramePrompt :=
  { layout := "horizontal_5"
    frames := [env.first, env.key 0, env.key 1, env.key 2, env.last] }

/-- The fixed separator joining the member prompts of a multi-frame record. -/
def frameSeparator : String := "\n---\n"

/-- `processFramePromptGeneration`: the goroutine body.  Inputs: the
`frame_prompts` table, the task record, whether the storyboard row exists,
the single-frame oracle and the request.  `none` models the goroutine
panicking (negative panel count), in which case nothing further is
written. -/
def processFramePromptGeneration (st : List FramePromptRecord) (task : TaskState)
    (storyboardExists : Bool) (env : FrameEnv) (req : GenerateFramePromptRequest) :
    Option (List FramePromptRecord × TaskState × Option FramePromptResponse) :=
  let task := updateTaskStatus task "processing" 0 "正在生成帧提示词..."
  if !storyboardExists then
    some (st, updateTaskStatus task "failed" 0 "分镜信息不存在", none)
  else
    if req.frameType == "first" then
      let f := env.first
      some (saveFramePrompt st req.storyboardID "first" f.prompt f.description "",
            updateTaskResult task, some ⟨"first", some f, none⟩)
    else if req.frameType == "key" then
      let f := env.key 0
      some (saveFramePrompt st req.storyboardID "key" f.prompt f.description "",
            updateTaskResult task, some ⟨"key", some f, none⟩)
    else if req.frameType == "last" then
      let f := env.last
      some (saveFramePrompt st req.storyboardID "last" f.prompt f.description "",
            updateTaskResult task, some ⟨"last", some f, none⟩)
    else if req.frameType == "panel" then
      let count := if req.panelCount == 0 then 3 else req.panelCount
      match generatePanelFrames env count with
      | none => none
      | some mf =>
        let combined := String.intercalate frameSeparator (mf.frames.map (·.prompt))
        some (saveFramePrompt st req.storyboardID "panel" combined "分镜板组合提示词" mf.layout,
              updateTaskResult task, some ⟨"panel", none, some mf⟩)
    else if req.frameType == "action" then
      let mf := generateActionSequence env
      let combined := String.intercalate frameSeparator (mf.frames.map (·.prompt))
      some (saveFramePrompt st req.storyboardID "action" combined "动作序列组合提示词" mf.layout,
            updateTaskResult task, some ⟨"action", none, some mf⟩)
    else
      some (st, updateTaskStatus task "failed" 0 "不支持的帧类型", none)

/-! ## Image generation records, completion and the polling engine
(`image_generation_service.go`) -/

/-- `image.ImageResult`: the uniform provider result shape. -/
structure ImageResult where
  completed : Bool
  imageURL : String
  taskId : String
  width : Int
  height : Int
  error : String
deriving Repr, DecidableEq, Inhabited

/-- The fields of a `models.ImageGeneration` row touched by the
finalisation steps. -/
structure ImageGenRecord where
  id : Nat
  storyboardId : Option Nat
  sceneId : Option Nat
  characterId : Option Nat
  imageType : String
  status : String
  imageUrl : Option String
  width : Option Int
  height : Option Int
  errorMsg : Option String
  hasCompletedAt : Bool
deriving Repr, DecidableEq, Inhabited

/-- The cross-updates `completeImageGeneration` / `updateImageGenError`
apply to the rows associated with the image-generation record. -/
inductive CrossUpdate where
  | storyboardComposedImage (id : Nat) (url : String)
  | sceneGenerated (id : Nat) (url : String)
  | characterImage (id : Nat) (url : String)
  | sceneFailed (id : Nat)
deriving Repr, DecidableEq

/-- `completeImageGeneration`: best-effort local download (attempted only
for an http/https URL when local storage is configured; its outcome
`downloadOk` is only logged), then the record is marked `completed` with
the provider's own URL, width/height updated only when positive, followed
by the composed-image / scene / character cross-updates.  The returned
log list stands for the `Warnw`/`Infow` calls around the download. -/
def completeImageGeneration (hasLocalStorage : Bool) (rec : ImageGenRecord)
    (result : ImageResult) (downloadOk : Bool) :
    ImageGenRecord × List CrossUpdate × List String :=
  let shouldDownload :=
    hasLocalStorage && result.imageURL != "" &&
      (result.imageURL.startsWith "http://" || result.imageURL.startsWith "https://")
  let logs :=
    if shouldDownload then
      if downloadOk then ["Image downloaded to local storage for caching"]
      else ["Failed to download image to local storage"]
    else []
  let rec' :=
    { rec with
      status := "completed"
      imageUrl := some result.imageURL
      hasCompletedAt := true
      width := if 0 < result.width then some result.width else rec.width
      height := if 0 < result.height then some result.height else rec.height }
  let updates :=
    (match rec.storyboardId with
     | some sid => [CrossUpdate.storyboardComposedImage sid result.imageURL]
     | none => []) ++
    (match rec.sceneId with
     | some scid =>
       if rec.imageType == "scene" then [CrossUpdate.sceneGenerated scid result.imageURL] else []
     | none => []) ++
    (match rec.characterId with
     | some cid => [CrossUpdate.characterImage cid result.imageURL]
     | none => [])
  (rec', updates, logs)

/-- `updateImageGenError`: mark the record `failed` with the error message
and mark an associated scene failed. -/
def updateImageGenError (rec : ImageGenRecord) (errorMsg : String) :
    ImageGenRecord × List CrossUpdate :=
  let rec' := { rec with status := "failed", errorMsg := some errorMsg }
  let updates :=
    match rec.sceneId with
    | some scid => [CrossUpdate.sceneFailed scid]
    | none => []
  (rec', updates)

/-- `maxAttempts` of `pollTaskStatus`. -/
def maxAttempts : Nat := 60

/-- `pollInterval` of `pollTaskStatus`, in seconds. -/
def pollInterval : Nat := 5

/-- Outcome of the poll loop: terminal success with the provider result,
or terminal failure with an error message. -/
inductive PollOutcome where
  | success (r : ImageResult)
  | failure (msg : String)
deriving Repr, DecidableEq, Inhabited

/-- One execution of the `for` loop of `pollTaskStatus`, from attempt
index `i` with `remaining` attempts left.  `resp i` is the outcome of the
`i`-th `client.GetTaskStatus` call (`none` = the call returned an error,
which the loop only logs before continuing).  Each iteration sleeps
`pollInterval` seconds and then makes one status call; the function
returns the terminal outcome, the number of status calls made and the
total time slept. -/
def pollAux (resp : Nat → Option ImageResult) : Nat → Nat → PollOutcome × Nat × Nat
  | _, 0 => (.failure "timeout: image generation took too long", 0, 0)
  | i, remaining + 1 =>
    match resp i with
    | none =>
      let (o, calls, slept) := pollAux resp (i + 1) remaining
      (o, calls + 1, slept + pollInterval)
    | some r =>
      if r.completed then (.success r, 1, pollInterval)
      else if r.error != "" then (.failure r.error, 1, pollInterval)
      else
        let (o, calls, slept) := pollAux resp (i + 1) remaining
        (o, calls + 1, slept + pollInterval)

/-- `pollTaskStatus`: up to `maxAttempts` status calls starting at attempt
index `0`. -/
def pollTaskStatus (resp : Nat → Option ImageResult) : PollOutcome × Nat × Nat :=
  pollAux resp 0 maxAttempts

/-- The finalisation the poll loop applies to the image-generation record:
`completeImageGeneration` on success, `updateImageGenError` on failure. -/
def finalizePoll (hasLocalStorage : Bool) (rec : ImageGenRecord) (downloadOk : Bool) :
    PollOutcome → ImageGenRecord
  | .success r => (completeImageGeneration hasLocalStorage rec r downloadOk).1
  | .failure msg => (updateImageGenError rec msg).1

/-! ## Image client resolution (`getImageClientWithModel`)

`AIService.GetConfigForModel` and `AIService.GetDefaultConfig` live in a
service not contained in the provided sources; modelled from the spec
(section 4.2) as an oracle environment returning either a provider config
or a lookup error. -/

/-- `models.AIServiceConfig` as read by client construction. -/
structure AIServiceConfig where
  provider : String
  baseURL : String
  apiKey : String
  model : List String
deriving Repr, DecidableEq, Inhabited

/-- The concrete image client adapters that can be returned. -/
inductive ImageClient where
  | openaiCompat (baseURL apiKey model endpoint : String)
  | volcEngine (baseURL apiKey model endpoint queryEndpoint : String)
  | gemini (baseURL apiKey model endpoint : String)
deriving Repr, DecidableEq, Inhabited

/-- Oracle for the config lookups of `AIService` (see section comment). -/
structure AIServiceEnv where
  configForModel : String → String → Except String AIServiceConfig
  defaultConfig : String → Except String AIServiceConfig

/-- The provider names with a dedicated case in the endpoint switch of
`getImageClientWithModel`. -/
def knownImageProviders : List String :=
  ["openai", "dalle", "chatfire", "volcengine", "volces", "doubao", "gemini", "google"]

/-- The `switch actualProvider` of `getImageClientWithModel`: derive the
endpoint from the provider identity and build the adapter. -/
def imageClientFor (config : AIServiceConfig) (provider model : String) : ImageClient :=
  let actualProvider := if config.provider != "" then config.provider else provider
  if actualProvider == "openai" || actualProvider == "dalle" then
    .openaiCompat config.baseURL config.apiKey model "/images/generations"
  else if actualProvider == "chatfire" then
    .openaiCompat config.baseURL config.apiKey model "/images/generations"
  else if actualProvider == "volcengine" || actualProvider == "volces" || actualProvider == "doubao" then
    .volcEngine config.baseURL config.apiKey model "/images/generations" ""
  else if actualProvider == "gemini" || actualProvider == "google" then
    .gemini config.baseURL config.apiKey model "/v1beta/models/{model}:generateContent"
  else
    .openaiCompat config.baseURL config.apiKey model "/images/generations"

/-- `getImageClientWithModel`: resolve the provider config (explicit-model
lookup with logged fallback to the default config), pick the model name,
and build the client via the endpoint switch. -/
def getImageClientWithModel (env : AIServiceEnv) (provider modelName : String) :
    Except String ImageClient :=
  let configRes : Except String AIServiceConfig :=
    if modelName != "" then
      match env.configForModel "image" modelName with
      | .ok c => .ok c
      | .error _ =>
        match env.defaultConfig "image" with
        | .ok c => .ok c
        | .error e => .error ("no image AI config found: " ++ e)
    else
      match env.defaultConfig "image" with
      | .ok c => .ok c
      | .error e => .error ("no image AI config found: " ++ e)
  match configRes with
  | .error e => .error e
  | .ok config =>
    let model := if modelName != "" then modelName else config.model.headD ""
    .ok (imageClientFor config provider model)

/-! ## Character persistence (`script_generation_service.go`,
`processCharacterGeneration` lines 134-164) -/

/-- A row of the `characters` table. -/
structure CharacterRow where
  id : Nat
  dramaId : Nat
  name : String
  role : Option String
  description : Option String
  personality : Option String
  appearance : Option String
  voiceStyle : Option String
deriving Repr, DecidableEq, Inhabited

/-- One parsed character of the AI response (the anonymous struct decoded
in `processCharacterGeneration`). -/
structure ParsedCharacter where
  name : String
  role : String
  description : String
  personality : String
  appearance : String
  voiceStyle : String
deriving Repr, DecidableEq, Inhabited

/-- The fresh `models.Character` row `processCharacterGeneration` creates
for a parsed character whose name does not yet exist for the drama. -/
def newCharacterRow (did nextId : Nat) (c : ParsedCharacter) : CharacterRow :=
  { id := nextId, dramaId := did, name := c.name, role := some c.role,
    description := some c.description, personality := some c.personality,
    appearance := some c.appearance, voiceStyle := some c.voiceStyle }

/-- The persistence loop of `processCharacterGeneration`: for each parsed
character, look the `(drama_id, name)` pair up; reuse the existing row
untouched when found, otherwise insert a fresh row (ids allocated from
`nextId`).  Returns the new table contents and the result list reported
on task completion.  The database create is modelled as always
succeeding. -/
def persistCharacters (did : Nat) : List CharacterRow → Nat → List ParsedCharacter →
    List CharacterRow × List CharacterRow
  | st, _, [] => (st, [])
  | st, nextId, c :: rest =>
    match st.find? (fun r => r.dramaId == did && r.name == c.name) with
    | some existing =>
      let p := persistCharacters did st nextId rest
      (p.1, existing :: p.2)
    | none =>
      let row := newCharacterRow did nextId c
      let p := persistCharacters did (st ++ [row]) (nextId + 1) rest
      (p.1, row :: p.2)

/-! ## Storyboard prompt helpers (`storyboard_service.go`)

Go's `strings.Index` returns a byte offset into the UTF-8 string and the
code only compares it with `0` and truncates at it; every occurrence sits
on a character boundary, so the helpers below work at character
granularity, which yields the same truncated strings. -/

/-- Whether `sub` is an initial run of `l`. -/
def listLeads : List Char → List Char → Bool
  | [], _ => true
  | _ :: _, [] => false
  | c :: cs, d :: ds => c == d && listLeads cs ds

/-- Character index of the first occurrence of `sub`, `none` when absent
(Go `strings.Index` would return `-1`). -/
def listIndexOfSub (sub : List Char) : List Char → Option Nat
  | [] => if sub.isEmpty then some 0 else none
  | d :: ds =>
    if listLeads sub (d :: ds) then some 0
    else (listIndexOfSub sub ds).map (· + 1)

/-- `strings.Index` at character granularity. -/
def goIndexChar (s sub : String) : Option Nat :=
  listIndexOfSub sub.toList s.toList

/-- `strings.TrimRight` with an explicit cutset. -/
def trimRightCutset (s : String) (cutset : List Char) : String :=
  ((s.toList.reverse.dropWhile (fun c => cutset.contains c)).reverse).asString

/-- The process-word list of `extractInitialPose`. -/
def initialPoseProcessWords : List String :=
  ["然后", "接着", "接下来", "随后", "紧接着",
   "向下", "向上", "向前", "向后", "向左", "向右",
   "开始", "继续", "逐渐", "慢慢", "快速", "突然", "猛然"]

/-- The truncation loop of `extractInitialPose`: the first process word
found at a positive index truncates the string and stops the loop. -/
def truncAtProcessWord (r : String) : List String → String
  | [] => r
  | w :: ws =>
    match goIndexChar r w with
    | some idx => if 0 < idx then (r.toList.take idx).asString else truncAtProcessWord r ws
    | none => truncAtProcessWord r ws

/-- `extractInitialPose`: drop the action-progress tail, then trim trailing
punctuation and whitespace. -/
def extractInitialPose (action : String) : String :=
  (trimRightCutset (truncAtProcessWord action initialPoseProcessWords)
    ['，', '。', ',', '.', ' ']).trim

/-- `generateImagePrompt`: scene description, initial pose, emotion and the
fixed style suffix, comma-joined. -/
def generateImagePrompt (sb : Storyboard) : String :=
  let parts : List String := []
  let parts := parts ++
    (if sb.location != "" then
      [if sb.time != "" then sb.location ++ ", " ++ sb.time else sb.location]
     else [])
  let parts := parts ++
    (if sb.action != "" then
      (let initialPose := extractInitialPose sb.action
       if initialPose != "" then [initialPose] else [])
     else [])
  let parts := parts ++ (if sb.emotion != "" then [sb.emotion] else [])
  let parts := parts ++ ["anime style, first frame"]
  if parts.length > 0 then String.intercalate ", " parts else "anime scene"

/-- `generateVideoPrompt`: labelled sections joined with `". "`; `style`
and `ratioCfg` are `config.Style.DefaultStyle` and
`config.Style.DefaultVideoRatio`. -/
def generateVideoPrompt (style ratioCfg : String) (sb : Storyboard) : String :=
  let parts : List String := []
  let parts := parts ++ (if sb.action != "" then ["Action: " ++ sb.action] else [])
  let parts := parts ++ (if sb.dialogue != "" then ["Dialogue: " ++ sb.dialogue] else [])
  let parts := parts ++ (if sb.movement != "" then ["Camera movement: " ++ sb.movement] else [])
  let parts := parts ++ (if sb.shotType != "" then ["Shot type: " ++ sb.shotType] else [])
  let parts := parts ++ (if sb.angle != "" then ["Camera angle: " ++ sb.angle] else [])
  let parts := parts ++
    (if sb.location != "" then
      [if sb.time != "" then "Scene: " ++ sb.location ++ ", " ++ sb.time
       else "Scene: " ++ sb.location]
     else [])
  let parts := parts ++ (if sb.atmosphere != "" then ["Atmosphere: " ++ sb.atmosphere] else [])
  let parts := parts ++ (if sb.emotion != "" then ["Mood: " ++ sb.emotion] else [])
  let parts := parts ++ (if sb.result != "" then ["Result: " ++ sb.result] else [])
  let parts := parts ++ (if sb.bgmPrompt != "" then ["BGM: " ++ sb.bgmPrompt] else [])
  let parts := parts ++ (if sb.soundEffect != "" then ["Sound effects: " ++ sb.soundEffect] else [])
  let parts := parts ++ ["Style: " ++ style]
  let parts := parts ++ ["=VideoRatio: " ++ ratioCfg]
  if parts.length > 0 then String.intercalate ". " parts else "Anime style video scene"

/-! ## Storyboard persistence and orchestration (`storyboard_service.go`) -/

/-- The fields of a `models.Episode` row read or written here. -/
structure EpisodeRow where
  id : Nat
  dramaId : Nat
  episodeNum : Int
  title : String
  duration : Int
deriving Repr, DecidableEq, Inhabited

/-- A row of the `storyboards` table as created by `saveStoryboards`. -/
structure StoryboardRow where
  id : Nat
  episodeId : Nat
  sceneId : Option Nat
  storyboardNumber : Int
  title : Option String
  location : Option String
  time : Option String
  shotType : Option String
  angle : Option String
  movement : Option String
  description : Option String
  action : Option String
  result : Option String
  atmosphere : Option String
  dialogue : Option String
  imagePrompt : Option String
  videoPrompt : Option String
  bgmPrompt : Option String
  soundEffect : Option String
  duration : Int
deriving Repr, DecidableEq, Inhabited

/-- The tables touched by storyboard persistence. -/
structure SBDb where
  episodes : List EpisodeRow
  storyboards : List StoryboardRow
  imageGens : List ImageGenRecord
  characters : List CharacterRow
  storyboardCharacters : List (Nat × Nat)
  nextStoryboardId : Nat
deriving Repr, DecidableEq, Inhabited

/-- `strconv.ParseUint(episodeID, 10, 32)`: the whole string must be a
digit run and the value must fit in 32 bits. -/
def parseEpisodeID (s : String) : Option Nat :=
  let cs := s.toList
  if cs.isEmpty then none
  else if cs.all Char.isDigit then
    if digitsVal cs < 2 ^ 32 then some (digitsVal cs) else none
  else none

/-- One `models.Storyboard` row built in the insert loop of
`saveStoryboards` (empty optional strings become NULL; location, time,
action, description and both derived prompts are always stored). -/
def buildStoryboardRow (style ratioCfg : String) (epId rowId : Nat) (sb : Storyboard) :
    StoryboardRow :=
  let description :=
    "【镜头类型】" ++ sb.shotType ++ "\n【运镜】" ++ sb.movement ++ "\n【动作】" ++ sb.action ++
    "\n【对话】" ++ sb.dialogue ++ "\n【结果】" ++ sb.result ++ "\n【情绪】" ++ sb.emotion
  { id := rowId
    episodeId := epId
    sceneId := sb.sceneId
    storyboardNumber := sb.shotNumber
    title := if sb.title != "" then some sb.title else none
    location := some sb.location
    time := some sb.time
    shotType := if sb.shotType != "" then some sb.shotType else none
    angle := if sb.angle != "" then some sb.angle else none
    movement := if sb.movement != "" then some sb.movement else none
    description := some description
    action := some sb.action
    result := if sb.result != "" then some sb.result else none
    atmosphere := if sb.atmosphere != "" then some sb.atmosphere else none
    dialogue := if sb.dialogue != "" then some sb.dialogue else none
    imagePrompt := some (generateImagePrompt sb)
    videoPrompt := some (generateVideoPrompt style ratioCfg sb)
    bgmPrompt := if sb.bgmPrompt != "" then some sb.bgmPrompt else none
    soundEffect := if sb.soundEffect != "" then some sb.soundEffect else none
    duration := sb.duration }

/-- `saveStoryboards`: validate the episode id, refuse an empty batch
before touching anything, then in one transaction detach the
image-generation back-references, delete the episode's prior storyboards,
insert the new rows and re-associate the characters present in the
`characters` table. -/
def saveStoryboards (style ratioCfg : String) (st : SBDb) (episodeID : String)
    (storyboards : List Storyboard) : Except String SBDb :=
  match parseEpisodeID episodeID with
  | none => .error ("无效的章节ID: " ++ episodeID)
  | some epId =>
    if storyboards.isEmpty then
      .error "AI生成分镜失败：返回的分镜数量为0"
    else
      match st.episodes.find? (fun e => e.id == epId) with
      | none => .error ("章节不存在: " ++ episodeID)
      | some _ =>
        let storyboardIds := (st.storyboards.filter (fun r => r.episodeId == epId)).map (·.id)
        let imageGens := st.imageGens.map (fun g =>
          match g.storyboardId with
          | some sid => if storyboardIds.contains sid then { g with storyboardId := none } else g
          | none => g)
        let remaining := st.storyboards.filter (fun r => !(r.episodeId == epId))
        let rows := ((List.range storyboards.length).zip storyboards).map
          (fun p => buildStoryboardRow style ratioCfg epId (st.nextStoryboardId + p.1) p.2)
        let assoc := (rows.zip storyboards).flatMap (fun p =>
          (p.2.characters.filter (fun cid => st.characters.any (fun ch => ch.id == cid))).map
            (fun cid => (p.1.id, cid)))
        .ok { st with
              storyboards := remaining ++ rows
              imageGens := imageGens
              storyboardCharacters := st.storyboardCharacters ++ assoc
              nextStoryboardId := st.nextStoryboardId + storyboards.length }

/-- Sum of the per-shot durations (seconds). -/
def totalDurationOf (storyboards : List Storyboard) : Int :=
  (storyboards.map (·.duration)).sum

/-- The episode duration written after a save: seconds to minutes, rounded
up, in Go integer arithmetic (`(totalDuration + 59) / 60`, truncated
division). -/
def episodeDurationMinutes (storyboards : List Storyboard) : Int :=
  (totalDurationOf storyboards + 59).tdiv 60

/-- The outcomes of the external calls made by
`processStoryboardGeneration`: the AI text call and the JSON document the
Resilient JSON Extractor locates in its response (see the JSON section
comment). -/
structure StoryboardAIEnv where
  aiText : Except String String
  extracted : Except String Json

/-- The two-shape parse applied to the extractor outcome. -/
def parseStoryboardsE (extracted : Except String Json) : Except String (List Storyboard) :=
  match extracted with
  | .error e => .error e
  | .ok j => parseStoryboards j

/-- `processStoryboardGeneration`: the goroutine body.  Moves the task to
`processing`, runs the AI call, parses with the two-shape fallback, saves
via `saveStoryboards`, updates the episode duration (errors there only
logged) and finalises the task; every failure path ends in
`updateTaskError`. -/
def processStoryboardGeneration (style ratioCfg : String) (st : SBDb) (task : TaskState)
    (episodeID : String) (env : StoryboardAIEnv) : SBDb × TaskState :=
  let task := updateTaskStatus task "processing" 10 "开始生成分镜头..."
  match env.aiText with
  | .error e => (st, updateTaskError task ("生成分镜头失败: " ++ e))
  | .ok _ =>
    let task := updateTaskStatus task "processing" 50 "分镜头生成完成，正在解析结果..."
    match parseStoryboardsE env.extracted with
    | .error e => (st, updateTaskError task ("解析分镜头结果失败: " ++ e))
    | .ok storyboards =>
      let task := updateTaskStatus task "processing" 70 "正在保存分镜头..."
      match saveStoryboards style ratioCfg st episodeID storyboards with
      | .error e => (st, updateTaskError task ("保存分镜头失败: " ++ e))
      | .ok st2 =>
        let task := updateTaskStatus task "processing" 90 "正在更新剧集时长..."
        let durationMinutes := episodeDurationMinutes storyboards
        let st3 :=
          match parseEpisodeID episodeID with
          | some epId =>
            { st2 with episodes := st2.episodes.map (fun ep =>
                if ep.id == epId then { ep with duration := durationMinutes } else ep) }
          | none => st2
        (st3, updateTaskResult task)

/-! ## Background extraction (`image_generation_service.go`,
`processBackgroundExtraction` / `extractBackgroundsFromScript`) -/

/-- A row of the `scenes` table. -/
structure SceneRow where
  id : Nat
  dramaId : Nat
  episodeId : Option Nat
  location : String
  time : String
  prompt : String
  storyboardCount : Int
  status : String
deriving Repr, DecidableEq, Inhabited

/-- The scene table state. -/
structure BGDb where
  scenes : List SceneRow
  nextSceneId : Nat
deriving Repr, DecidableEq, Inhabited

/-- The episode fields read by background extraction. -/
structure EpisodeInfo where
  id : Nat
  dramaId : Nat
  scriptContent : Option String
deriving Repr, DecidableEq, Inhabited

/-- The outcomes of the external calls of `extractBackgroundsFromScript`:
text-client resolution (its model-name fallback is embedded separately
for the image capability in `getImageClientWithModel`), the AI text call,
and the extractor's located JSON document. -/
structure BGEnv where
  clientRes : Except String Unit
  aiText : Except String String
  extracted : Except String Json

/-- The two-shape parse applied to the extractor outcome. -/
def parseBackgroundsE (extracted : Except String Json) : Except String (List BackgroundInfo) :=
  match extracted with
  | .error e => .error e
  | .ok j => parseBackgrounds j

/-- `extractBackgroundsFromScript`: empty script short-circuits to an empty
list; otherwise resolve a client, run the AI call and parse the response
with the two-shape fallback. -/
def extractBackgroundsFromScript (scriptContent : String) (env : BGEnv) :
    Except String (List BackgroundInfo) :=
  if scriptContent == "" then .ok []
  else
    match env.clientRes with
    | .error e => .error ("failed to get AI client: " ++ e)
    | .ok _ =>
      match env.aiText with
      | .error e => .error ("AI提取场景失败: " ++ e)
      | .ok _ =>
        match parseBackgroundsE env.extracted with
        | .error e => .error ("解析AI响应失败: " ++ e)
        | .ok backgrounds => .ok backgrounds

/-- `processBackgroundExtraction`: the goroutine body.  After validation
and AI extraction it runs one transaction that deletes all of the
episode's prior scenes and inserts one row per extracted background, then
completes the task.  (Note: unlike `saveStoryboards` there is no guard on
an empty extraction result.) -/
def processBackgroundExtraction (st : BGDb) (task : TaskState) (episode : Option EpisodeInfo)
    (env : BGEnv) : BGDb × TaskState :=
  let task := updateTaskStatus task "processing" 0 "正在提取场景信息..."
  match episode with
  | none => (st, updateTaskStatus task "failed" 0 "剧集信息不存在")
  | some ep =>
    match ep.scriptContent with
    | none => (st, updateTaskStatus task "failed" 0 "剧本内容为空")
    | some script =>
      if script == "" then (st, updateTaskStatus task "failed" 0 "剧本内容为空")
      else
        match extractBackgroundsFromScript script env with
        | .error e => (st, updateTaskStatus task "failed" 0 ("AI提取场景失败: " ++ e))
        | .ok backgrounds =>
          let kept := st.scenes.filter (fun sc => !(sc.episodeId == some ep.id))
          let newRows := ((List.range backgrounds.length).zip backgrounds).map (fun p =>
            { id := st.nextSceneId + p.1
              dramaId := ep.dramaId
              episodeId := some ep.id
              location := p.2.location
              time := p.2.time
              prompt := p.2.prompt
              storyboardCount := 1
              status := "pending" : SceneRow })
          let st2 : BGDb :=
            { scenes := kept ++ newRows
              nextSceneId := st.nextSceneId + backgrounds.length }
          (st2, updateTaskResult task)

/-! ## Theorems -/

/-- C4: Parsing an AI response as a bare array `[...]` and as the
wrapper-object shape (`{"storyboards":[...]}` for storyboards,
`{"backgrounds":[...]}` for scene extraction) with identical semantic
content produce the same typed item list, and both parsers first attempt
the array shape and only on failure the wrapper-object shape. -/
theorem parse_shape_invariance :
    (∀ (items : List Json) (l : List Storyboard),
        decodeStoryboardList (Json.arr items) = .ok l →
        parseStoryboards (Json.arr items) = .ok l ∧
        parseStoryboards (Json.obj [("storyboards", Json.arr items)]) = .ok l) ∧
    (∀ (items : List Json) (l : List BackgroundInfo),
        decodeBackgroundList (Json.arr items) = .ok l →
        parseBackgrounds (Json.arr items) = .ok l ∧
        parseBackgrounds (Json.obj [("backgrounds", Json.arr items)]) = .ok l) ∧
    (∀ (j : Json) (l : List Storyboard),
        decodeStoryboardList j = .ok l → parseStoryboards j = .ok l) ∧
    (∀ (j : Json) (e : String),
        decodeStoryboardList j = .error e →
        parseStoryboards j = (decodeStoryboardResult j).map (·.storyboards)) ∧
    (∀ (j : Json) (l : List BackgroundInfo),
        decodeBackgroundList j = .ok l → parseBackgrounds j = .ok l) ∧
    (∀ (j : Json) (e : String),
        decodeBackgroundList j = .error e → parseBackgrounds j = decodeBackgroundsWrapper j) := by
  refine ⟨?_, ?_, ?_, ?_, ?_, ?_⟩
  · intro items l h
    constructor
    · simp [parseStoryboards, h]
    · have harr : decodeStoryboardList (Json.obj [("storyboards", Json.arr items)]) =
        .error "cannot unmarshal into value of type slice of Storyboard" := rfl
      simp [parseStoryboards, harr, decodeStoryboardResult, jLookup, jIntField, h, List.find?]
      rfl
  · intro items l h
    constructor
    · simp [parseBackgrounds, h]
    · have harr : decodeBackgroundList (Json.obj [("backgrounds", Json.arr items)]) =
        .error "cannot unmarshal into value of type slice of BackgroundInfo" := rfl
      simp [parseBackgrounds, harr, decodeBackgroundsWrapper, jLookup, h, List.find?]
  · intro j l h
    simp [parseStoryboards, h]
  · intro j e h
    simp [parseStoryboards, h]
  · intro j l h
    simp [parseBackgrounds, h]
  · intro j e h
    simp [parseBackgrounds, h]

/-- A concrete storyboard JSON item used to witness the parse theorems. -/
def witnessStoryboardJson : Json :=
  Json.obj [("shot_number", Json.num 1), ("title", Json.str "噩梦惊醒"),
            ("duration", Json.num 9), ("characters", Json.arr [Json.num 159]),
            ("is_primary", Json.bool true)]

/-- The typed storyboard the witness item decodes to. -/
def witnessStoryboard : Storyboard :=
  { shotNumber := 1, title := "噩梦惊醒", shotType := "", angle := "", time := "",
    location := "", sceneId := none, movement := "", action := "", dialogue := "",
    result := "", atmosphere := "", emotion := "", duration := 9, bgmPrompt := "",
    soundEffect := "", characters := [159], isPrimary := true }

/-- Witness for C4: at a concrete one-item batch, the bare-array shape and
the wrapper-object shape parse to the same typed list. -/
theorem parse_shape_invariance_witness :
    decodeStoryboardList (Json.arr [witnessStoryboardJson]) = .ok [witnessStoryboard] ∧
    parseStoryboards (Json.arr [witnessStoryboardJson]) = .ok [witnessStoryboard] ∧
    parseStoryboards (Json.obj [("storyboards", Json.arr [witnessStoryboardJson])]) =
      .ok [witnessStoryboard] := by
  have h : decodeStoryboardList (Json.arr [witnessStoryboardJson]) = .ok [witnessStoryboard] := rfl
  exact ⟨h, (parse_shape_invariance.1 [witnessStoryboardJson] [witnessStoryboard] h).1,
    (parse_shape_invariance.1 [witnessStoryboardJson] [witnessStoryboard] h).2⟩

/-- C5: `panel` with count 3 composes first → key → last with the
第1格/第2格/第3格 descriptions, `panel` with count 4 composes
first → key → key → last, `action` composes exactly five frames
first → key → key → key → last, and the single stored record's prompt is
the frame prompts joined with the fixed separator `"\n---\n"`. -/
theorem frame_composition_order :
    (∀ (st : List FramePromptRecord) (task : TaskState) (env : FrameEnv) (sid : String),
      processFramePromptGeneration st task true env ⟨sid, "panel", 3⟩ =
        some (saveFramePrompt st sid "panel"
                (String.intercalate frameSeparator
                  [env.first.prompt, (env.key 0).prompt, env.last.prompt])
                "分镜板组合提示词" "horizontal_3",
              updateTaskResult (updateTaskStatus task "processing" 0 "正在生成帧提示词..."),
              some ⟨"panel", none,
                    some ⟨"horizontal_3",
                          [⟨env.first.prompt, "第1格：初始状态"⟩,
                           ⟨(env.key 0).prompt, "第2格：动作高潮"⟩,
                           ⟨env.last.prompt, "第3格：最终状态"⟩]⟩⟩)) ∧
    (∀ (st : List FramePromptRecord) (task : TaskState) (env : FrameEnv) (sid : String),
      processFramePromptGeneration st task true env ⟨sid, "panel", 4⟩ =
        some (saveFramePrompt st sid "panel"
                (String.intercalate frameSeparator
                  [env.first.prompt, (env.key 0).prompt, (env.key 1).prompt, env.last.prompt])
                "分镜板组合提示词" "horizontal_4",
              updateTaskResult (updateTaskStatus task "processing" 0 "正在生成帧提示词..."),
              some ⟨"panel", none,
                    some ⟨"horizontal_4",
                          [env.first, env.key 0, env.key 1, env.last]⟩⟩)) ∧
    (∀ (st : List FramePromptRecord) (task : TaskState) (env : FrameEnv) (sid : String),
      processFramePromptGeneration st task true env ⟨sid, "action", 0⟩ =
        some (saveFramePrompt st sid "action"
                (String.intercalate frameSeparator
                  [env.first.prompt, (env.key 0).prompt, (env.key 1).prompt,
                   (env.key 2).prompt, env.last.prompt])
                "动作序列组合提示词" "horizontal_5",
              updateTaskResult (updateTaskStatus task "processing" 0 "正在生成帧提示词..."),
              some ⟨"action", none,
                    some ⟨"horizontal_5",
                          [env.first, env.key 0, env.key 1, env.key 2, env.last]⟩⟩)) ∧
    frameSeparator = "\n---\n" := by
  refine ⟨fun st task env sid => rfl, fun st task env sid => rfl, fun st task env sid => rfl, rfl⟩

/-- Constant single-frame oracle used in concrete runs. -/
def constFrameEnv : FrameEnv :=
  { first := ⟨"", ""⟩, key := fun _ => ⟨"", ""⟩, last := ⟨"", ""⟩ }

/-- A fresh task record. -/
def task0 : TaskState := { status := "pending", progress := 0, message := "", hasResult := false }

/-- Counterexample to C10 as stated: for `PanelCount = -1` (which is
neither 0, 3 nor 4) the goroutine panics in `make([]SingleFramePrompt,
count)` — modelled as `none` — so the task is never completed, contrary
to the claim that any `PanelCount` outside 0/3/4 still completes the
task. -/
theorem panel_count_negative_panics :
    processFramePromptGeneration [] task0 true constFrameEnv ⟨"1", "panel", -1⟩ = none ∧
    (-1 : Int) ≠ 0 ∧ (-1 : Int) ≠ 3 ∧ (-1 : Int) ≠ 4 :=
  ⟨rfl, by decide, by decide, by decide⟩

/-- C10 (amended): a `PanelCount` of 0 is treated as 3, and for any
NON-NEGATIVE `PanelCount` other than 0, 3 or 4 the background job makes
no AI call (the outcome does not depend on the single-frame oracle) yet
still completes the task, producing a `MultiFramePrompt` with layout
`horizontal_<count>` and exactly `PanelCount` empty frames, the stored
combined prompt being just the separators joining the empty prompts. -/
theorem panel_count_defaults_and_fallthrough :
    (∀ (st : List FramePromptRecord) (task : TaskState) (env : FrameEnv) (sid : String),
      processFramePromptGeneration st task true env ⟨sid, "panel", 0⟩ =
        processFramePromptGeneration st task true env ⟨sid, "panel", 3⟩) ∧
    (∀ (st : List FramePromptRecord) (task : TaskState) (env env2 : FrameEnv) (sid : String)
        (count : Int), 0 ≤ count → count ≠ 0 → count ≠ 3 → count ≠ 4 →
      processFramePromptGeneration st task true env ⟨sid, "panel", count⟩ =
        some (saveFramePrompt st sid "panel"
                (String.intercalate frameSeparator (List.replicate count.toNat ""))
                "分镜板组合提示词" ("horizontal_" ++ toString count),
              updateTaskResult (updateTaskStatus task "processing" 0 "正在生成帧提示词..."),
              some ⟨"panel", none,
                    some ⟨"horizontal_" ++ toString count,
                          List.replicate count.toNat ⟨"", ""⟩⟩⟩) ∧
      processFramePromptGeneration st task true env ⟨sid, "panel", count⟩ =
        processFramePromptGeneration st task true env2 ⟨sid, "panel", count⟩) := by
  constructor
  · intro st task env sid
    rfl
  · intro st task env env2 sid count hnn h0 h3 h4
    have hmain : ∀ (e : FrameEnv),
        processFramePromptGeneration st task true e ⟨sid, "panel", count⟩ =
          some (saveFramePrompt st sid "panel"
                  (String.intercalate frameSeparator (List.replicate count.toNat ""))
                  "分镜板组合提示词" ("horizontal_" ++ toString count),
                updateTaskResult (updateTaskStatus task "processing" 0 "正在生成帧提示词..."),
                some ⟨"panel", none,
                      some ⟨"horizontal_" ++ toString count,
                            List.replicate count.toNat ⟨"", ""⟩⟩⟩) := by
      intro e
      simp only [processFramePromptGeneration, generatePanelFrames, Bool.not_true,
        Bool.false_eq_true, if_false]
      have hc0 : (count == 0) = false := by simp [h0]
      have hc3 : (count == 3) = false := by simp [h3]
      have hc4 : (count == 4) = false := by simp [h4]
      have hneg : ¬ count < 0 := not_lt.mpr hnn
      simp [hc0, hc3, hc4, hneg, List.map_replicate]
    exact ⟨hmain env, (hmain env).trans (hmain env2).symm⟩

/-- Witness for C10 (amended) at the concrete count 5: five empty frames,
layout `horizontal_5`, and a stored prompt made only of separators. -/
theorem panel_count_fallthrough_witness :
    (0 : Int) ≤ 5 ∧ (5 : Int) ≠ 0 ∧ (5 : Int) ≠ 3 ∧ (5 : Int) ≠ 4 ∧
    processFramePromptGeneration [] task0 true constFrameEnv ⟨"1", "panel", 5⟩ =
      some (saveFramePrompt [] "1" "panel"
              (String.intercalate frameSeparator (List.replicate (5 : Int).toNat ""))
              "分镜板组合提示词" ("horizontal_" ++ toString (5 : Int)),
            updateTaskResult (updateTaskStatus task0 "processing" 0 "正在生成帧提示词..."),
            some ⟨"panel", none,
                  some ⟨"horizontal_" ++ toString (5 : Int),
                        List.replicate (5 : Int).toNat ⟨"", ""⟩⟩⟩) :=
  ⟨by decide, by decide, by decide, by decide,
   (panel_count_defaults_and_fallthrough.2 [] task0 constFrameEnv constFrameEnv "1" 5
      (by decide) (by decide) (by decide) (by decide)).1⟩

/-- C2: both background orchestrators, once they have moved their task to
`processing`, finish every (normal) return with the task in a terminal
state — `completed` with the structured result or `failed` with a
descriptive message. -/
theorem orchestrators_reach_terminal_state :
    (∀ (style ratioCfg : String) (st : SBDb) (task : TaskState) (episodeID : String)
        (env : StoryboardAIEnv),
      (processStoryboardGeneration style ratioCfg st task episodeID env).2.status = "completed" ∨
      (processStoryboardGeneration style ratioCfg st task episodeID env).2.status = "failed") ∧
    (∀ (st : List FramePromptRecord) (task : TaskState) (storyboardExists : Bool)
        (env : FrameEnv) (req : GenerateFramePromptRequest)
        (out : List FramePromptRecord × TaskState × Option FramePromptResponse),
      processFramePromptGeneration st task storyboardExists env req = some out →
      out.2.1.status = "completed" ∨ out.2.1.status = "failed") := by
  constructor
  · intro style ratioCfg st task episodeID env
    simp only [processStoryboardGeneration]
    cases hai : env.aiText with
    | error e => simp [hai, updateTaskError]
    | ok t =>
      cases hparse : parseStoryboardsE env.extracted with
      | error e => simp [hai, hparse, updateTaskError]
      | ok storyboards =>
        cases hsave : saveStoryboards style ratioCfg st episodeID storyboards with
        | error e => simp [hai, hparse, hsave, updateTaskError]
        | ok st2 =>
          cases hep : parseEpisodeID episodeID <;>
            simp [hai, hparse, hsave, hep, updateTaskResult]
  · intro st task storyboardExists env req out h
    simp only [processFramePromptGeneration] at h
    by_cases hex : storyboardExists
    · simp only [hex, Bool.not_true, Bool.false_eq_true, if_false] at h
      by_cases h1 : req.frameType == "first"
      · simp only [h1, if_true, Option.some.injEq] at h
        rw [← h]
        simp [updateTaskResult]
      · simp only [h1, Bool.false_eq_true, if_false] at h
        by_cases h2 : req.frameType == "key"
        · simp only [h2, if_true, Option.some.injEq] at h
          rw [← h]
          simp [updateTaskResult]
        · simp only [h2, Bool.false_eq_true, if_false] at h
          by_cases h3 : req.frameType == "last"
          · simp only [h3, if_true, Option.some.injEq] at h
            rw [← h]
            simp [updateTaskResult]
          · simp only [h3, Bool.false_eq_true, if_false] at h
            by_cases h4 : req.frameType == "panel"
            · simp only [h4, if_true] at h
              cases hgen : generatePanelFrames env (if req.panelCount == 0 then 3 else req.panelCount) with
              | none => rw [hgen] at h; simp at h
              | some mf =>
                rw [hgen] at h
                simp only [Option.some.injEq] at h
                rw [← h]
                simp [updateTaskResult]
            · simp only [h4, Bool.false_eq_true, if_false] at h
              by_cases h5 : req.frameType == "action"
              · simp only [h5, if_true, Option.some.injEq] at h
                rw [← h]
                simp [updateTaskResult]
              · simp only [h5, Bool.false_eq_true, if_false, Option.some.injEq] at h
                rw [← h]
                simp [updateTaskStatus]
    · simp only [hex, Bool.not_false, if_true, Option.some.injEq] at h
      rw [← h]
      simp [updateTaskStatus]

/-- Witness for C2 at a concrete frame-prompt run: a `first` request
returns with the task completed. -/
theorem orchestrators_reach_terminal_state_witness :
    processFramePromptGeneration [] task0 true constFrameEnv ⟨"1", "first", 0⟩ =
      some (saveFramePrompt [] "1" "first" "" "" "",
            updateTaskResult (updateTaskStatus task0 "processing" 0 "正在生成帧提示词..."),
            some ⟨"first", some ⟨"", ""⟩, none⟩) ∧
    ((updateTaskResult (updateTaskStatus task0 "processing" 0 "正在生成帧提示词...")).status = "completed" ∨
     (updateTaskResult (updateTaskStatus task0 "processing" 0 "正在生成帧提示词...")).status = "failed") :=
  ⟨rfl,
   orchestrators_reach_terminal_state.2 [] task0 true constFrameEnv ⟨"1", "first", 0⟩
     (saveFramePrompt [] "1" "first" "" "" "",
      updateTaskResult (updateTaskStatus task0 "processing" 0 "正在生成帧提示词..."),
      some ⟨"first", some ⟨"", ""⟩, none⟩) rfl⟩

/-- C7: on terminal success the image-generation record stores exactly the
provider result's URL (never the cache path), width/height are updated
only when positive in the result, and the outcome of the best-effort
local download changes neither the record nor the cross-updates. -/
theorem image_completion_stores_provider_url :
    ∀ (hasLocalStorage : Bool) (rec : ImageGenRecord) (result : ImageResult) (downloadOk : Bool),
      (completeImageGeneration hasLocalStorage rec result downloadOk).1.status = "completed" ∧
      (completeImageGeneration hasLocalStorage rec result downloadOk).1.imageUrl =
        some result.imageURL ∧
      (completeImageGeneration hasLocalStorage rec result downloadOk).1.width =
        (if 0 < result.width then some result.width else rec.width) ∧
      (completeImageGeneration hasLocalStorage rec result downloadOk).1.height =
        (if 0 < result.height then some result.height else rec.height) ∧
      (completeImageGeneration hasLocalStorage rec result true).1 =
        (completeImageGeneration hasLocalStorage rec result false).1 ∧
      (completeImageGeneration hasLocalStorage rec result true).2.1 =
        (completeImageGeneration hasLocalStorage rec result false).2.1 := by
  intro hasLocalStorage rec result downloadOk
  exact ⟨rfl, rfl, rfl, rfl, rfl, rfl⟩

/-- C8: an explicit model name whose provider-config lookup fails falls
back to the default image config instead of surfacing the lookup error;
resolution errors only when no default config exists; and a provider name
outside the known set resolves to the generic OpenAI-compatible client
with the `/images/generations` endpoint. -/
theorem image_client_resolution :
    (∀ (env : AIServiceEnv) (provider modelName e : String) (c : AIServiceConfig),
        modelName ≠ "" →
        env.configForModel "image" modelName = .error e →
        env.defaultConfig "image" = .ok c →
        getImageClientWithModel env provider modelName =
          .ok (imageClientFor c provider modelName)) ∧
    (∀ (env : AIServiceEnv) (provider modelName err : String),
        getImageClientWithModel env provider modelName = .error err →
        ∃ e, env.defaultConfig "image" = .error e ∧
          err = "no image AI config found: " ++ e) ∧
    (∀ (config : AIServiceConfig) (provider model : String),
        (if config.provider != "" then config.provider else provider) ∉ knownImageProviders →
        imageClientFor config provider model =
          .openaiCompat config.baseURL config.apiKey model "/images/generations") := by
  refine ⟨?_, ?_, ?_⟩
  · intro env provider modelName e c hne hlookup hdefault
    simp only [getImageClientWithModel, hlookup, hdefault, bne_iff_ne, ne_eq, hne,
      not_false_eq_true, if_true]
  · intro env provider modelName err h
    simp only [getImageClientWithModel] at h
    by_cases hne : modelName != ""
    · rw [if_pos hne] at h
      cases hl : env.configForModel "image" modelName with
      | ok c => rw [hl] at h; simp at h
      | error e =>
        rw [hl] at h
        cases hd : env.defaultConfig "image" with
        | ok c => rw [hd] at h; simp at h
        | error e2 =>
          rw [hd] at h
          simp only [Except.error.injEq] at h
          exact ⟨e2, rfl, h.symm⟩
    · rw [if_neg hne] at h
      cases hd : env.defaultConfig "image" with
      | ok c => rw [hd] at h; simp at h
      | error e2 =>
        rw [hd] at h
        simp only [Except.error.injEq] at h
        exact ⟨e2, rfl, h.symm⟩
  · intro config provider model hnotin
    have hne : ∀ s, s ∈ knownImageProviders →
        ¬ (if config.provider != "" then config.provider else provider) = s :=
      fun s hs heq => hnotin (heq ▸ hs)
    simp only [imageClientFor]
    have c1 := beq_eq_false_iff_ne.mpr (hne "openai" (by simp [knownImageProviders]))
    have c2 := beq_eq_false_iff_ne.mpr (hne "dalle" (by simp [knownImageProviders]))
    have c3 := beq_eq_false_iff_ne.mpr (hne "chatfire" (by simp [knownImageProviders]))
    have c4 := beq_eq_false_iff_ne.mpr (hne "volcengine" (by simp [knownImageProviders]))
    have c5 := beq_eq_false_iff_ne.mpr (hne "volces" (by simp [knownImageProviders]))
    have c6 := beq_eq_false_iff_ne.mpr (hne "doubao" (by simp [knownImageProviders]))
    have c7 := beq_eq_false_iff_ne.mpr (hne "gemini" (by simp [knownImageProviders]))
    have c8 := beq_eq_false_iff_ne.mpr (hne "google" (by simp [knownImageProviders]))
    simp only [c1, c2, c3, c4, c5, c6, c7, c8, Bool.or_false, Bool.false_or,
      Bool.false_eq_true, if_false]

/-- A default image provider config used in concrete client-resolution
runs. -/
def defaultImageConfig : AIServiceConfig :=
  { provider := "", baseURL := "https://api.example.com/v1", apiKey := "key", model := ["m1"] }

/-- A config oracle whose per-model lookup always fails and whose image
default is `defaultImageConfig`. -/
def fallbackAIServiceEnv : AIServiceEnv :=
  { configForModel := fun _ _ => .error "record not found"
    defaultConfig := fun kind => if kind == "image" then .ok defaultImageConfig
                                 else .error "no config" }

/-- Witness for C8: a concrete failed model lookup falls back to the
default config, and the unknown provider name resolves to the generic
OpenAI-compatible client. -/
theorem image_client_resolution_witness :
    ("sd-xl" : String) ≠ "" ∧
    fallbackAIServiceEnv.configForModel "image" "sd-xl" = .error "record not found" ∧
    fallbackAIServiceEnv.defaultConfig "image" = .ok defaultImageConfig ∧
    getImageClientWithModel fallbackAIServiceEnv "myprovider" "sd-xl" =
      .ok (imageClientFor defaultImageConfig "myprovider" "sd-xl") ∧
    (if defaultImageConfig.provider != "" then defaultImageConfig.provider
     else "myprovider") ∉ knownImageProviders ∧
    imageClientFor defaultImageConfig "myprovider" "sd-xl" =
      .openaiCompat defaultImageConfig.baseURL defaultImageConfig.apiKey "sd-xl"
        "/images/generations" :=
  ⟨by decide, rfl, rfl,
   image_client_resolution.1 fallbackAIServiceEnv "myprovider" "sd-xl" "record not found"
     defaultImageConfig (by decide) rfl rfl,
   by decide,
   image_client_resolution.2.2 defaultImageConfig "myprovider" "sd-xl" (by decide)⟩

/-- Helper: a stub that never reports completion and never reports an
error string drives the loop through all remaining attempts. -/
theorem pollAux_stub (resp : Nat → Option ImageResult)
    (hstub : ∀ i, resp i = none ∨ ∃ r, resp i = some r ∧ r.completed = false ∧ r.error = "") :
    ∀ (rem i : Nat),
      pollAux resp i rem =
        (.failure "timeout: image generation took too long", rem, rem * pollInterval) := by
  intro rem
  induction rem with
  | zero => intro i; simp [pollAux]
  | succ rem ih =>
    intro i
    rcases hstub i with h | ⟨r, hr, hc, he⟩
    · simp [pollAux, h, ih (i + 1), Nat.succ_mul]
    · simp [pollAux, hr, hc, he, ih (i + 1), Nat.succ_mul]

/-- Helper: the loop makes at most `rem` status calls. -/
theorem pollAux_calls_le (resp : Nat → Option ImageResult) :
    ∀ (rem i : Nat), (pollAux resp i rem).2.1 ≤ rem := by
  intro rem
  induction rem with
  | zero => intro i; simp [pollAux]
  | succ rem ih =>
    intro i
    have hrec := ih (i + 1)
    rcases hp : pollAux resp (i + 1) rem with ⟨o, c, s⟩
    rw [hp] at hrec
    simp only at hrec
    cases hcall : resp i with
    | none => simp [pollAux, hcall, hp]; omega
    | some r =>
      cases hcomp : r.completed with
      | true => simp [pollAux, hcall, hcomp]
      | false =>
        cases hbe : r.error != "" with
        | true => simp [pollAux, hcall, hcomp, hbe]
        | false => simp [pollAux, hcall, hcomp, hbe, hp]; omega

/-- Helper: the total time slept is the fixed interval times the number of
status calls (one sleep before each call). -/
theorem pollAux_sleep (resp : Nat → Option ImageResult) :
    ∀ (rem i : Nat), (pollAux resp i rem).2.2 = (pollAux resp i rem).2.1 * pollInterval := by
  intro rem
  induction rem with
  | zero => intro i; simp [pollAux]
  | succ rem ih =>
    intro i
    have hrec := ih (i + 1)
    rcases hp : pollAux resp (i + 1) rem with ⟨o, c, s⟩
    rw [hp] at hrec
    simp only at hrec
    cases hcall : resp i with
    | none => simp [pollAux, hcall, hp, hrec, Nat.succ_mul]
    | some r =>
      cases hcomp : r.completed with
      | true => simp [pollAux, hcall, hcomp]
      | false =>
        cases hbe : r.error != "" with
        | true => simp [pollAux, hcall, hcomp, hbe]
        | false => simp [pollAux, hcall, hcomp, hbe, hp, hrec, Nat.succ_mul]

/-- C3: the poll loop sleeps a fixed 5-second interval before every status
call, makes at most 60 calls, treats a status-call error as transient,
finalizes success as soon as `completed` is reported and failure as soon
as a non-empty error string is reported; a provider stub that never
completes and never errors drives it through exactly 60 attempts, after
which the image-generation record is marked failed with the timeout
message. -/
theorem poll_loop_bounded_timeout :
    pollInterval = 5 ∧ maxAttempts = 60 ∧
    (∀ resp, (pollTaskStatus resp).2.1 ≤ maxAttempts) ∧
    (∀ resp, (pollTaskStatus resp).2.2 = (pollTaskStatus resp).2.1 * pollInterval) ∧
    (∀ (resp : Nat → Option ImageResult) (i rem : Nat), resp i = none →
      pollAux resp i (rem + 1) =
        ((pollAux resp (i + 1) rem).1, (pollAux resp (i + 1) rem).2.1 + 1,
         (pollAux resp (i + 1) rem).2.2 + pollInterval)) ∧
    (∀ (resp : Nat → Option ImageResult) (i rem : Nat) (r : ImageResult),
      resp i = some r → r.completed = true →
      pollAux resp i (rem + 1) = (.success r, 1, pollInterval)) ∧
    (∀ (resp : Nat → Option ImageResult) (i rem : Nat) (r : ImageResult),
      resp i = some r → r.completed = false → r.error ≠ "" →
      pollAux resp i (rem + 1) = (.failure r.error, 1, pollInterval)) ∧
    (∀ (resp : Nat → Option ImageResult),
      (∀ i, resp i = none ∨ ∃ r, resp i = some r ∧ r.completed = false ∧ r.error = "") →
      pollTaskStatus resp =
        (.failure "timeout: image generation took too long", maxAttempts,
         maxAttempts * pollInterval) ∧
      ∀ (hasLocalStorage downloadOk : Bool) (rec : ImageGenRecord),
        (finalizePoll hasLocalStorage rec downloadOk (pollTaskStatus resp).1).status = "failed" ∧
        (finalizePoll hasLocalStorage rec downloadOk (pollTaskStatus resp).1).errorMsg =
          some "timeout: image generation took too long") := by
  refine ⟨rfl, rfl, ?_, ?_, ?_, ?_, ?_, ?_⟩
  · intro resp
    exact pollAux_calls_le resp maxAttempts 0
  · intro resp
    exact pollAux_sleep resp maxAttempts 0
  · intro resp i rem h
    rcases hp : pollAux resp (i + 1) rem with ⟨o, c, s⟩
    simp [pollAux, h, hp]
  · intro resp i rem r h hc
    simp [pollAux, h, hc]
  · intro resp i rem r h hc he
    simp [pollAux, h, hc, he]
  · intro resp hstub
    have hrun := pollAux_stub resp hstub maxAttempts 0
    refine ⟨hrun, ?_⟩
    intro hasLocalStorage downloadOk rec
    have h1 : (pollTaskStatus resp).1 = .failure "timeout: image generation took too long" := by
      rw [show pollTaskStatus resp = pollAux resp 0 maxAttempts from rfl, hrun]
    rw [h1]
    exact ⟨rfl, rfl⟩

/-- A provider stub that never completes and never errors. -/
def stubNeverDone : Nat → Option ImageResult :=
  fun _ => some { completed := false, imageURL := "", taskId := "", width := 0, height := 0, error := "" }

/-- Witness for C3: the concrete stub exhausts exactly the 60 attempts and
yields the timeout failure. -/
theorem poll_loop_bounded_timeout_witness :
    (∀ i, stubNeverDone i = none ∨
      ∃ r, stubNeverDone i = some r ∧ r.completed = false ∧ r.error = "") ∧
    pollTaskStatus stubNeverDone =
      (.failure "timeout: image generation took too long", maxAttempts,
       maxAttempts * pollInterval) :=
  have h : ∀ i, stubNeverDone i = none ∨
      ∃ r, stubNeverDone i = some r ∧ r.completed = false ∧ r.error = "" :=
    fun _ => Or.inr ⟨_, rfl, rfl, rfl⟩
  ⟨h, (poll_loop_bounded_timeout.2.2.2.2.2.2.2 stubNeverDone h).1⟩

/-- Helper: character persistence only appends; the prior table contents
survive unchanged as an initial segment. -/
theorem persistCharacters_extends (did : Nat) :
    ∀ (parsed : List ParsedCharacter) (st : List CharacterRow) (nextId : Nat),
      ∃ extra, (persistCharacters did st nextId parsed).1 = st ++ extra := by
  intro parsed
  induction parsed with
  | nil => intro st nextId; exact ⟨[], by simp [persistCharacters]⟩
  | cons c rest ih =>
    intro st nextId
    cases hf : st.find? (fun r => r.dramaId == did && r.name == c.name) with
    | some existing =>
      obtain ⟨extra, hex⟩ := ih st nextId
      exact ⟨extra, by simp [persistCharacters, hf, hex]⟩
    | none =>
      obtain ⟨extra, hex⟩ := ih (st ++ [newCharacterRow did nextId c]) (nextId + 1)
      refine ⟨newCharacterRow did nextId c :: extra, ?_⟩
      simp [persistCharacters, hf, hex]

/-- Helper: a parsed character whose `(drama_id, name)` pair already has a
row puts that very row into the completed result list. -/
theorem persistCharacters_result_mem (did : Nat) :
    ∀ (parsed : List ParsedCharacter) (st : List CharacterRow) (nextId : Nat)
      (c : ParsedCharacter) (r : CharacterRow),
      c ∈ parsed →
      st.find? (fun r0 => r0.dramaId == did && r0.name == c.name) = some r →
      r ∈ (persistCharacters did st nextId parsed).2 := by
  intro parsed
  induction parsed with
  | nil => intro st nextId c r hc; simp at hc
  | cons c0 rest ih =>
    intro st nextId c r hc hfind
    rcases List.mem_cons.mp hc with rfl | hcr
    · simp [persistCharacters, hfind]
    · cases hf : st.find? (fun r0 => r0.dramaId == did && r0.name == c0.name) with
      | some ex =>
        have := ih st nextId c r hcr hfind
        simp [persistCharacters, hf, this]
      | none =>
        have hfind' : (st ++ [newCharacterRow did nextId c0]).find?
            (fun r0 => r0.dramaId == did && r0.name == c.name) = some r := by
          rw [List.find?_append, hfind]
          rfl
        have := ih (st ++ [newCharacterRow did nextId c0]) (nextId + 1) c r hcr hfind'
        simp [persistCharacters, hf, this]

/-- Helper: every row present after persistence that was not present
before has a name that did not yet exist for the drama. -/
theorem persistCharacters_inserts_new (did : Nat) :
    ∀ (parsed : List ParsedCharacter) (st : List CharacterRow) (nextId : Nat) (r : CharacterRow),
      r ∈ (persistCharacters did st nextId parsed).1 → r ∉ st →
      ∀ r0 ∈ st, ¬(r0.dramaId = did ∧ r0.name = r.name) := by
  intro parsed
  induction parsed with
  | nil =>
    intro st nextId r hmem hnot
    simp [persistCharacters] at hmem
    exact absurd hmem hnot
  | cons c rest ih =>
    intro st nextId r hmem hnot r0 hr0
    cases hf : st.find? (fun r1 => r1.dramaId == did && r1.name == c.name) with
    | some ex =>
      simp only [persistCharacters, hf] at hmem
      exact ih st nextId r hmem hnot r0 hr0
    | none =>
      simp only [persistCharacters, hf] at hmem
      by_cases hr : r = newCharacterRow did nextId c
      · subst hr
        rintro ⟨hd, hn⟩
        have hnone := List.find?_eq_none.mp hf r0 hr0
        apply hnone
        simp only [newCharacterRow] at hn
        simp [hd, hn]
      · have hnot' : r ∉ st ++ [newCharacterRow did nextId c] := by
          intro hmem'
          rcases List.mem_append.mp hmem' with h | h
          · exact hnot h
          · simp at h
            exact hr h
        exact ih (st ++ [newCharacterRow did nextId c]) (nextId + 1) r hmem hnot'
          r0 (List.mem_append_left _ hr0)

/-- C9: when character generation persists its parsed results, every
existing `(drama_id, name)` row is left entirely unchanged (the prior
table survives as an initial segment of the new one) and is included in
the completed task's result list; rows are inserted only for names that
did not yet exist for the drama. -/
theorem character_generation_preserves_existing :
    ∀ (did nextId : Nat) (st : List CharacterRow) (parsed : List ParsedCharacter),
      (∃ extra, (persistCharacters did st nextId parsed).1 = st ++ extra) ∧
      (∀ c ∈ parsed, ∀ r,
        st.find? (fun r0 => r0.dramaId == did && r0.name == c.name) = some r →
        r ∈ (persistCharacters did st nextId parsed).2) ∧
      (∀ r, r ∈ (persistCharacters did st nextId parsed).1 → r ∉ st →
        ∀ r0 ∈ st, ¬(r0.dramaId = did ∧ r0.name = r.name)) :=
  fun did nextId st parsed =>
    ⟨persistCharacters_extends did parsed st nextId,
     fun c hc r hfind => persistCharacters_result_mem did parsed st nextId c r hc hfind,
     fun r hmem hnot => persistCharacters_inserts_new did parsed st nextId r hmem hnot⟩

/-- An existing character row for the witness drama. -/
def charRow0 : CharacterRow :=
  { id := 1, dramaId := 7, name := "陈峥", role := some "主角", description := some "老角色",
    personality := some "沉稳", appearance := some "黑发", voiceStyle := some "低沉" }

/-- The parsed character that collides with `charRow0` by name. -/
def parsedDup : ParsedCharacter :=
  { name := "陈峥", role := "反派", description := "新描述", personality := "狡诈",
    appearance := "金发", voiceStyle := "尖锐" }

/-- The parsed character whose name is new for the drama. -/
def parsedNew : ParsedCharacter :=
  { name := "李芳", role := "配角", description := "d", personality := "p",
    appearance := "a", voiceStyle := "v" }

/-- Witness for C9: with one existing row and a colliding plus a fresh
parsed character, the existing row survives unchanged and is in the
result list, and exactly the fresh character is inserted. -/
theorem character_generation_preserves_existing_witness :
    parsedDup ∈ [parsedDup, parsedNew] ∧
    [charRow0].find? (fun r0 => r0.dramaId == 7 && r0.name == parsedDup.name) = some charRow0 ∧
    charRow0 ∈ (persistCharacters 7 [charRow0] 2 [parsedDup, parsedNew]).2 ∧
    (persistCharacters 7 [charRow0] 2 [parsedDup, parsedNew]).1 =
      [charRow0] ++ [newCharacterRow 7 2 parsedNew] :=
  ⟨List.mem_cons_self _ _, rfl,
   (character_generation_preserves_existing 7 2 [charRow0] [parsedDup, parsedNew]).2.1
     parsedDup (List.mem_cons_self _ _) charRow0 rfl,
   rfl⟩

/-- Helper: for a non-negative total, Go's `(t + 59) / 60` (truncated
integer division) is the ceiling of `t / 60`. -/
theorem tdiv_sixty_ceil (t : Int) (ht : 0 ≤ t) : (t + 59).tdiv 60 = ⌈(t : ℚ) / 60⌉ := by
  rw [Int.tdiv_eq_ediv (by omega) (by norm_num)]
  have hq := Int.ediv_add_emod (t + 59) 60
  have hr0 : 0 ≤ (t + 59) % 60 := Int.emod_nonneg _ (by norm_num)
  have hr1 : (t + 59) % 60 < 60 := Int.emod_lt_of_pos _ (by norm_num)
  symm
  rw [Int.ceil_eq_iff]
  constructor
  · rw [lt_div_iff₀ (by norm_num : (0 : ℚ) < 60)]
    have hlt : ((t + 59) / 60 - 1) * 60 < t := by omega
    exact_mod_cast hlt
  · rw [div_le_iff₀ (by norm_num : (0 : ℚ) < 60)]
    have hle : t ≤ (t + 59) / 60 * 60 := by omega
    exact_mod_cast hle

/-- C6: after a successful storyboard generation the episode's stored
duration is `(totalSeconds + 59) / 60` in integer arithmetic, which for
shots with non-negative durations is exactly
`ceiling(totalSeconds / 60)`. -/
theorem episode_duration_ceiling :
    (∀ (storyboards : List Storyboard),
      (∀ sb ∈ storyboards, 0 ≤ sb.duration) →
      episodeDurationMinutes storyboards = ⌈(totalDurationOf storyboards : ℚ) / 60⌉ ∧
      episodeDurationMinutes storyboards = (totalDurationOf storyboards + 59).tdiv 60) ∧
    (∀ (style ratioCfg : String) (st : SBDb) (task : TaskState) (episodeID : String)
        (env : StoryboardAIEnv) (sbs : List Storyboard) (st2 : SBDb) (task2 : TaskState)
        (epId : Nat),
      parseStoryboardsE env.extracted = .ok sbs →
      parseEpisodeID episodeID = some epId →
      processStoryboardGeneration style ratioCfg st task episodeID env = (st2, task2) →
      task2.status = "completed" →
      ∀ ep ∈ st2.episodes, ep.id = epId → ep.duration = episodeDurationMinutes sbs) := by
  constructor
  · intro storyboards h
    have ht : 0 ≤ totalDurationOf storyboards := by
      apply List.sum_nonneg
      intro x hx
      obtain ⟨sb, hsb, rfl⟩ := List.mem_map.1 hx
      exact h sb hsb
    exact ⟨tdiv_sixty_ceil _ ht, rfl⟩
  · intro style ratioCfg st task episodeID env sbs st2 task2 epId hparse hepid hproc hstatus
      ep hmem hid
    simp only [processStoryboardGeneration] at hproc
    cases hai : env.aiText with
    | error e =>
      rw [hai] at hproc
      injection hproc with h1 h2
      rw [← h2] at hstatus
      exact absurd hstatus (by simp [updateTaskError])
    | ok txt =>
      rw [hai] at hproc
      simp only [hparse] at hproc
      cases hsave : saveStoryboards style ratioCfg st episodeID sbs with
      | error e =>
        rw [hsave] at hproc
        injection hproc with h1 h2
        rw [← h2] at hstatus
        exact absurd hstatus (by simp [updateTaskError])
      | ok st2' =>
        rw [hsave] at hproc
        simp only [hepid] at hproc
        injection hproc with h1 h2
        rw [← h1] at hmem
        simp only at hmem
        obtain ⟨orig, horig, rfl⟩ := List.mem_map.1 hmem
        cases hcond : orig.id == epId with
        | true => simp [hcond]
        | false =>
          rw [hcond] at hid
          rw [if_neg (by simp)] at hid
          exact absurd hid (by simpa [beq_iff_eq] using hcond)

/-- A database state with one episode used in concrete storyboard runs. -/
def sbDb0 : SBDb :=
  { episodes := [{ id := 3, dramaId := 7, episodeNum := 1, title := "第一集", duration := 0 }],
    storyboards := [], imageGens := [], characters := [], storyboardCharacters := [],
    nextStoryboardId := 1 }

/-- The AI environment whose extractor yields the concrete one-shot batch. -/
def sbEnv0 : StoryboardAIEnv :=
  { aiText := .ok "resp", extracted := .ok (Json.arr [witnessStoryboardJson]) }

/-- Witness for C6: the concrete 9-second single-shot batch rounds up to a
stored duration of one minute. -/
theorem episode_duration_ceiling_witness :
    (∀ sb ∈ [witnessStoryboard], 0 ≤ sb.duration) ∧
    episodeDurationMinutes [witnessStoryboard] =
      ⌈(totalDurationOf [witnessStoryboard] : ℚ) / 60⌉ ∧
    episodeDurationMinutes [witnessStoryboard] = 1 ∧
    parseStoryboardsE sbEnv0.extracted = .ok [witnessStoryboard] ∧
    parseEpisodeID "3" = some 3 ∧
    (processStoryboardGeneration "anime" "9:16" sbDb0 task0 "3" sbEnv0).2.status = "completed" ∧
    ∀ ep ∈ (processStoryboardGeneration "anime" "9:16" sbDb0 task0 "3" sbEnv0).1.episodes,
      ep.id = 3 → ep.duration = episodeDurationMinutes [witnessStoryboard] :=
  have hnn : ∀ sb ∈ [witnessStoryboard], 0 ≤ sb.duration := by decide
  ⟨hnn, (episode_duration_ceiling.1 [witnessStoryboard] hnn).1, by decide, rfl, rfl, rfl,
   episode_duration_ceiling.2 "anime" "9:16" sbDb0 task0 "3" sbEnv0 [witnessStoryboard]
     (processStoryboardGeneration "anime" "9:16" sbDb0 task0 "3" sbEnv0).1
     (processStoryboardGeneration "anime" "9:16" sbDb0 task0 "3" sbEnv0).2 3 rfl rfl rfl rfl⟩

/-- A scene row that predates the witness background re-extraction. -/
def bgScene0 : SceneRow :=
  { id := 1, dramaId := 7, episodeId := some 3, location := "旧地点", time := "旧时间",
    prompt := "旧提示词", storyboardCount := 1, status := "pending" }

/-- The scene table before the witness background re-extraction. -/
def bgDb0 : BGDb := { scenes := [bgScene0], nextSceneId := 2 }

/-- The episode whose backgrounds get re-extracted. -/
def bgEp0 : EpisodeInfo := { id := 3, dramaId := 7, scriptContent := some "剧本内容" }

/-- An extraction environment whose AI response is the empty array `[]`. -/
def bgEnvEmpty : BGEnv :=
  { clientRes := .ok (), aiText := .ok "[]", extracted := .ok (Json.arr []) }

/-- Counterexample to C1 as stated: in the background-extraction
Replace-and-Resync path an empty `[]` AI batch deletes the episode's
prior scene rows and the task completes — the guard exists only on the
storyboard path. -/
theorem empty_batch_background_deletes :
    bgDb0.scenes = [bgScene0] ∧
    parseBackgroundsE bgEnvEmpty.extracted = .ok [] ∧
    (processBackgroundExtraction bgDb0 task0 (some bgEp0) bgEnvEmpty).1.scenes = [] ∧
    (processBackgroundExtraction bgDb0 task0 (some bgEp0) bgEnvEmpty).2.status = "completed" :=
  ⟨rfl, rfl, rfl, rfl⟩

/-- C1 (amended): the Empty-Result Guard holds on the storyboard path:
`saveStoryboards` rejects an empty batch before any deletion (for a valid
episode id with the dedicated guard message), and the storyboard
orchestrator leaves the database unchanged and fails the task whenever
the parsed batch is empty.  The background-extraction path has no such
guard (see the counterexample). -/
theorem empty_batch_guard_storyboards :
    (∀ (style ratioCfg : String) (st : SBDb) (episodeID : String),
      ∃ e, saveStoryboards style ratioCfg st episodeID [] = .error e) ∧
    (∀ (style ratioCfg : String) (st : SBDb) (episodeID : String) (epId : Nat),
      parseEpisodeID episodeID = some epId →
      saveStoryboards style ratioCfg st episodeID [] =
        .error "AI生成分镜失败：返回的分镜数量为0") ∧
    (∀ (style ratioCfg : String) (st : SBDb) (task : TaskState) (episodeID : String)
        (env : StoryboardAIEnv),
      parseStoryboardsE env.extracted = .ok [] →
      (processStoryboardGeneration style ratioCfg st task episodeID env).1 = st ∧
      (processStoryboardGeneration style ratioCfg st task episodeID env).2.status = "failed") := by
  refine ⟨?_, ?_, ?_⟩
  · intro style ratioCfg st episodeID
    simp only [saveStoryboards]
    cases parseEpisodeID episodeID with
    | none => exact ⟨_, rfl⟩
    | some epId => exact ⟨_, rfl⟩
  · intro style ratioCfg st episodeID epId h
    simp [saveStoryboards, h]
  · intro style ratioCfg st task episodeID env hparse
    simp only [processStoryboardGeneration]
    cases hai : env.aiText with
    | error e => simp [updateTaskError]
    | ok txt =>
      simp only [hparse]
      have hsave : saveStoryboards style ratioCfg st episodeID [] =
          .error (match parseEpisodeID episodeID with
                  | none => "无效的章节ID: " ++ episodeID
                  | some _ => "AI生成分镜失败：返回的分镜数量为0") := by
        simp only [saveStoryboards]
        cases parseEpisodeID episodeID with
        | none => rfl
        | some epId => simp
      rw [hsave]
      simp [updateTaskError]

/-- The AI environment whose extractor yields an empty storyboard batch. -/
def sbEnvEmpty : StoryboardAIEnv :=
  { aiText := .ok "[]", extracted := .ok (Json.arr []) }

/-- Witness for C1 (amended): the concrete empty batch leaves the concrete
database untouched and fails the task. -/
theorem empty_batch_guard_storyboards_witness :
    parseStoryboardsE sbEnvEmpty.extracted = .ok [] ∧
    (processStoryboardGeneration "anime" "9:16" sbDb0 task0 "3" sbEnvEmpty).1 = sbDb0 ∧
    (processStoryboardGeneration "anime" "9:16" sbDb0 task0 "3" sbEnvEmpty).2.status = "failed" :=
  ⟨rfl,
   (empty_batch_guard_storyboards.2.2 "anime" "9:16" sbDb0 task0 "3" sbEnvEmpty rfl).1,
   (empty_batch_guard_storyboards.2.2 "anime" "9:16" sbDb0 task0 "3" sbEnvEmpty rfl).2⟩

end HuobaoDrama
